import Mathlib

/-!
Verification of the declare repository's core routines against its
specification.

The development shallowly embeds, in Lean:
  * `DeclareHandler._validate_rows` and `DeclareHandler.bulk_insert_declarations`
    from `src/pages/test_declare.py`, including the Python value coercions
    (`int(...)`, truthiness of `x or y`, `str(...).strip()`) they perform;
  * the query facade `DatabaseManager._fetch_df` / `DatabaseManager._execute`
    from `src/db_handler.py` as functions of an environment giving the outcome
    of each statement attempt, commit and rollback, returning the result
    together with the trace of connection actions performed;
  * `DatabaseManager.check_foreign_key_references` from `src/db_handler.py`,
    parameterised by the foreign-key constraint rows returned by the
    information-schema query and by an oracle giving the result of each
    per-table EXISTS probe;
  * the `INSERT INTO shelfentries` statement template shared by
    `DeclareHandler.insert_declaration` (`src/pages/Multi_Declare.py`) and both
    paths of `bulk_insert_declarations`, as a column list and a VALUES row of
    literals and parameter placeholders.

Database behaviour is abstracted as oracles: the embedding never fixes what
the database does, only how the Python code reacts to each outcome.
-/

/-! ### Python values, as they occur in the rows handed to the bulk writer -/

/-- A Python value of the shapes that reach `_validate_rows`: an `int`, a
`str`, or `None`. -/
inductive PyVal where
  | vint (n : Int)
  | vstr (s : String)
  | vnone
  deriving DecidableEq

/-- Truthiness of a `PyVal`, as used by Python's `x or y`:
`0`, `""` and `None` are falsy. -/
def pyTruthy : PyVal → Bool
  | .vint n => n != 0
  | .vstr s => s != ""
  | .vnone => false

/-- `str(v)` for the values above: ints print in decimal, strings are
unchanged, `None` prints as `"None"`. -/
def pyStr : PyVal → String
  | .vint n => toString n
  | .vstr s => s
  | .vnone => "None"

/-- Python `s.strip()`: remove whitespace from both ends (modelled over the
ASCII whitespace characters; written by structural recursion over the
character list so that concrete instances evaluate). -/
def pyStrip (s : String) : String :=
  ⟨((s.data.dropWhile Char.isWhitespace).reverse.dropWhile Char.isWhitespace).reverse⟩

/-- Digits-only parse used by `pyParseInt`; fails on the empty list and on
any non-digit character. -/
def parseDigits (cs : List Char) : Option Nat :=
  if cs = [] then none
  else if cs.all Char.isDigit then
    some (cs.foldl (fun a c => a * 10 + (c.toNat - 48)) 0)
  else none

/-- Python `int(s)` on a string: optional surrounding whitespace, an optional
sign, then decimal digits; anything else raises `ValueError`. (Exotic forms
such as digit-group underscores are not modelled; no input in this
development uses them.) -/
def pyParseInt (s : String) : Option Int :=
  match (pyStrip s).toList with
  | '+' :: cs => (parseDigits cs).map Int.ofNat
  | '-' :: cs => (parseDigits cs).map (fun n => -(n : Int))
  | cs => (parseDigits cs).map Int.ofNat

/-- Python `int(v)`: identity on ints, string parse on strings (raising
`ValueError` when unparseable), `TypeError` on `None`. Errors are the
exceptions the call raises. -/
def pyInt : PyVal → Except String Int
  | .vint n => .ok n
  | .vstr s =>
      match pyParseInt s with
      | some n => .ok n
      | none => .error ("ValueError: invalid literal for int() with base 10: " ++ s)
  | .vnone => .error "TypeError: int() argument cannot be None"

/-! ### `_validate_rows` (src/pages/test_declare.py, lines 145-164) -/

/-- One input row `r` of `bulk_insert_declarations`: the values of
`r["itemid"]`, `r["qty"]`, `r["locid"]`, with `none` when the key is absent
(so that `r.get(k)` yields Python `None` and `r[k]` raises `KeyError`). -/
structure InRow where
  itemid : Option PyVal
  qty : Option PyVal
  locid : Option PyVal
  deriving DecidableEq

/-- A row that passed validation: `{"itemid": itemid, "qty": qty, "locid": locid}`. -/
structure VRow where
  itemid : Int
  qty : Int
  locid : String
  deriving DecidableEq

/-- `int(r["itemid"])`: `KeyError` when the key is absent, otherwise `int`
coercion; both exception kinds are caught by the surrounding `try`. -/
def pyIntItem (r : InRow) : Except String Int :=
  match r.itemid with
  | none => .error "KeyError: itemid"
  | some v => pyInt v

/-- The value whose `int` is taken for the quantity:
`r.get("qty", 0) or 0`. -/
def qtyVal (r : InRow) : PyVal :=
  let q0 := r.qty.getD (.vint 0)
  if pyTruthy q0 then q0 else .vint 0

/-- `str(r.get("locid") or "").strip()`. -/
def locidVal (r : InRow) : String :=
  let l0 := r.locid.getD .vnone
  pyStrip (pyStr (if pyTruthy l0 then l0 else .vstr ""))

/-- `f"Row {i}: invalid itemid `{r.get('itemid')}`."` -/
def msgInvalidItemid (i : Nat) (r : InRow) : String :=
  "Row " ++ toString i ++ ": invalid itemid `" ++
    (match r.itemid with | none => "None" | some v => pyStr v) ++ "`."

/-- `f"Row {i}: quantity must be > 0 (got {qty})."` -/
def msgQty (i : Nat) (qty : Int) : String :=
  "Row " ++ toString i ++ ": quantity must be > 0 (got " ++ toString qty ++ ")."

/-- `f"Row {i}: locid is empty."` -/
def msgLocid (i : Nat) : String :=
  "Row " ++ toString i ++ ": locid is empty."

/-- The body of `_validate_rows`' loop, with `i` the 1-based row index.
Returns the validated rows and the per-row error messages, both in input
order; an `Except.error` is the uncaught exception raised by
`int(r.get("qty", 0) or 0)` on a quantity that is a non-empty non-numeric
string (that conversion sits outside the `try` that guards the itemid
conversion). -/
def validateRowsFrom (i : Nat) : List InRow → Except String (List VRow × List String)
  | [] => .ok ([], [])
  | r :: rs =>
    match pyIntItem r with
    | .error _ => do
        let (vs, es) ← validateRowsFrom (i + 1) rs
        return (vs, msgInvalidItemid i r :: es)
    | .ok itemid => do
        let qty ← pyInt (qtyVal r)
        let locid := locidVal r
        let (vs, es) ← validateRowsFrom (i + 1) rs
        if qty ≤ 0 then
          return (vs, msgQty i qty :: es)
        else if locid = "" then
          return (vs, msgLocid i :: es)
        else
          return (⟨itemid, qty, locid⟩ :: vs, es)

/-- `DeclareHandler._validate_rows(rows)`: row numbering starts at 1. -/
def validate_rows (rows : List InRow) : Except String (List VRow × List String) :=
  validateRowsFrom 1 rows

/-! ### `bulk_insert_declarations` (src/pages/test_declare.py, lines 166-211) -/

/-- One parameter tuple `(int(r["itemid"]), int(r["qty"]), str(r["locid"]))`. -/
def InsertTuple := Int × Int × String
  deriving DecidableEq

/-- The parameter tuples built from the validated rows (`values` in the
source; `int` and `str` are identities there since validation already
coerced the fields). -/
def tuplesOf (vs : List VRow) : List InsertTuple :=
  vs.map (fun r => (r.itemid, r.qty, r.locid))

/-- The database-writing behaviour `bulk_insert_declarations` is run
against: the outcome of `self.execute_many(sql, values)` and of each
`self.execute_command(sql, tup)`. Errors are the exception texts. -/
structure DB where
  execute_many : List InsertTuple → Except String Unit
  execute_command : InsertTuple → Except String Unit

/-- A database call made by `bulk_insert_declarations`. -/
inductive DBCall where
  | callMany (values : List InsertTuple)
  | callCommand (t : InsertTuple)
  deriving DecidableEq

/-- The outcome dictionary `{ok, failed, errors}`. -/
structure Outcome where
  ok : Nat
  failed : Nat
  errors : List String
  deriving DecidableEq

/-- The per-row fallback loop: `for idx, tup in enumerate(values, start=1)`,
with `idx` starting at `i`. Returns `(ok, bad, messages, calls)`. -/
def fallbackLoop (db : DB) (i : Nat) : List InsertTuple → Nat × Nat × List String × List DBCall
  | [] => (0, 0, [], [])
  | t :: ts =>
    let (o, b, es, cs) := fallbackLoop db (i + 1) ts
    match db.execute_command t with
    | .ok _ => (o + 1, b, es, .callCommand t :: cs)
    | .error e =>
        (o, b + 1,
          ("Row " ++ toString i ++ " failed (itemid=" ++ toString t.1 ++
            ", qty=" ++ toString t.2.1 ++ ", locid='" ++ t.2.2 ++ "'): " ++ e) :: es,
          .callCommand t :: cs)

/-- The error message of a failing fallback row (index `i`, tuple `t`,
underlying error `e`). -/
def rowFailMsg (i : Nat) (t : InsertTuple) (e : String) : String :=
  "Row " ++ toString i ++ " failed (itemid=" ++ toString t.1 ++
    ", qty=" ++ toString t.2.1 ++ ", locid='" ++ t.2.2 ++ "'): " ++ e

/-- `DeclareHandler.bulk_insert_declarations(rows)`. Returns the outcome
dictionary together with the trace of database calls made, or the uncaught
exception propagated out of `_validate_rows`. -/
def bulk_insert_declarations (db : DB) (rows : List InRow) :
    Except String (Outcome × List DBCall) :=
  if rows.isEmpty then .ok (⟨0, 0, []⟩, [])
  else do
    let (vrows, valErrs) ← validate_rows rows
    if vrows.isEmpty then
      .ok (⟨0, valErrs.length, valErrs⟩, [])
    else
      let values := tuplesOf vrows
      match db.execute_many values with
      | .ok _ => .ok (⟨values.length, 0, valErrs⟩, [.callMany values])
      | .error e =>
          let (o, b, es, cs) := fallbackLoop db 1 values
          .ok (⟨o, b, (valErrs ++ ["Bulk insert failed: " ++ e]) ++ es⟩,
            .callMany values :: cs)

/-- The tuples inserted per-row (through `execute_command`) in a trace. -/
def traceCommands (tr : List DBCall) : List InsertTuple :=
  tr.filterMap (fun c => match c with | .callCommand t => some t | _ => none)

/-- Every parameter tuple appearing in any call of a trace. -/
def traceTuples (tr : List DBCall) : List InsertTuple :=
  tr.flatMap (fun c => match c with | .callMany vs => vs | .callCommand t => [t])

/-! ### The methods the repository's classes define

`DatabaseManager` (src/db_handler.py) and the `DeclareHandler` subclass used
by the bulk writer (src/pages/test_declare.py) define exactly these methods;
in particular neither defines `execute_many`, so the attribute lookup
`self.execute_many` on the bulk fast path raises `AttributeError`. -/

def databaseManagerMethods : List String :=
  ["__init__", "_ensure_live_conn", "_fetch_df", "_execute",
   "fetch_data", "execute_command", "execute_command_returning",
   "get_all_sections", "get_dropdown_values", "get_suppliers",
   "add_inventory", "check_foreign_key_references"]

def declareHandlerMethods : List String :=
  ["get_item_by_barcode", "get_inventory_total", "get_item_locations",
   "_validate_rows", "bulk_insert_declarations",
   "get_recent_declarations_at_location"]

/-- The exception text of the missing-attribute lookup on the fast path. -/
def execManyAttrErr : String :=
  "AttributeError: 'DeclareHandler' object has no attribute 'execute_many'"

/-- The database behaviour realised by the repository's classes: the fast
path raises `AttributeError` (no `execute_many` is defined anywhere on the
class hierarchy), while `execute_command` exists and behaves as the
database dictates (the oracle `perRow`). -/
def repoDB (perRow : InsertTuple → Except String Unit) : DB :=
  ⟨fun _ => .error execManyAttrErr, perRow⟩

/-! ### The query facade (src/db_handler.py, `_fetch_df` lines 173-203 and
`_execute` lines 205-239)

Both methods first run `_ensure_live_conn` (a liveness probe that rebuilds a
closed or unresponsive connection; it executes no user statement and no claim
depends on it), then a `try` block whose error handling is modelled here.
The environment records what each statement attempt, commit and rollback
would do; the body is a pure function of it, returning the facade's result
together with the ordered trace of connection actions it performs. -/

/-- A psycopg2 exception, classified the way the `except` clauses of
`_fetch_df` / `_execute` dispatch on it: `OperationalError` and
`InterfaceError` are the transient connection errors; everything else
(e.g. `IntegrityError` for a constraint violation) falls to the
`except Exception` clause. -/
inductive PgError where
  | operational (m : String)
  | interfaceErr (m : String)
  | otherErr (m : String)
  deriving DecidableEq

/-- Whether the first `except (OperationalError, InterfaceError)` clause
catches the exception. -/
def PgError.isTransient : PgError → Bool
  | .operational _ => true
  | .interfaceErr _ => true
  | .otherErr _ => false

/-- A connection action performed by the facade body, in order:
statement execution attempts (numbered), connection rebuild
(`_get_conn_for_session.clear()` + reconnect), `conn.commit()` (numbered by
attempt), `conn.rollback()`. -/
inductive DbAction where
  | execAttempt (n : Nat)
  | rebuild
  | commitCall (n : Nat)
  | rollbackCall
  deriving DecidableEq

/-- The result a fetched cursor yields: `cur.fetchall()` (the rows, each a
list of cells) and the column names `[c[0] for c in cur.description]`. -/
def CursorResult (α : Type) := List (List α) × List String

/-- A pandas DataFrame, reduced to its data and column labels. -/
structure Frame (α : Type) where
  data : List (List α)
  columns : List String
  deriving DecidableEq

/-- `pd.DataFrame(rows, columns=cols) if rows else pd.DataFrame()`: on an
empty row list the source builds the default empty frame, which has no
columns. -/
def mkDataFrame {α : Type} (rows : List (List α)) (cols : List String) : Frame α :=
  if rows.isEmpty then ⟨[], []⟩ else ⟨rows, cols⟩

/-- Environment of one `_fetch_df` call: the outcome of executing the
statement on the current connection (`attempt1`), on the rebuilt connection
(`attempt2`), and whether `conn.rollback()` itself raises
(`rollbackRes = some e`). -/
structure FetchEnv (α : Type) where
  attempt1 : Except PgError (CursorResult α)
  attempt2 : Except PgError (CursorResult α)
  rollbackRes : Option PgError

/-- The `try`/`except` body of `_fetch_df`: on success build the DataFrame;
on a transient error rebuild the connection and run the statement once more,
any second failure propagating; on any other error call `conn.rollback()`
and re-raise (a failure of the rollback itself propagates instead, as the
rollback call is not guarded). -/
def fetchBody {α : Type} (env : FetchEnv α) : Except PgError (Frame α) × List DbAction :=
  match env.attempt1 with
  | .ok (rows, cols) => (.ok (mkDataFrame rows cols), [.execAttempt 1])
  | .error e =>
    if e.isTransient then
      match env.attempt2 with
      | .ok (rows, cols) =>
          (.ok (mkDataFrame rows cols), [.execAttempt 1, .rebuild, .execAttempt 2])
      | .error e2 => (.error e2, [.execAttempt 1, .rebuild, .execAttempt 2])
    else
      match env.rollbackRes with
      | none => (.error e, [.execAttempt 1, .rollbackCall])
      | some re => (.error re, [.execAttempt 1, .rollbackCall])

/-- Environment of one `_execute` call: outcome of `cur.execute` (plus the
`fetchone()` when `returning`) on each connection, of each `conn.commit()`,
and of `conn.rollback()`. -/
structure ExecEnv (β : Type) where
  attempt1 : Except PgError β
  commit1 : Option PgError
  attempt2 : Except PgError β
  commit2 : Option PgError
  rollbackRes : Option PgError

/-- The retry branch of `_execute` (the first `except` clause): rebuild,
re-execute, re-commit; `acts` is the trace accumulated so far. Exceptions
raised here propagate — no handler of the same `try` applies. -/
def execRetry {β : Type} (env : ExecEnv β) (acts : List DbAction) :
    Except PgError β × List DbAction :=
  match env.attempt2 with
  | .error e2 => (.error e2, acts ++ [.rebuild, .execAttempt 2])
  | .ok res =>
      match env.commit2 with
      | some ce2 => (.error ce2, acts ++ [.rebuild, .execAttempt 2, .commitCall 2])
      | none => (.ok res, acts ++ [.rebuild, .execAttempt 2, .commitCall 2])

/-- The `except Exception` branch of `_execute` and `_fetch_df`:
`self.conn.rollback(); raise`. When the rollback itself raises, that
exception propagates in place of the original one. -/
def execRollback {β : Type} (env : ExecEnv β) (e : PgError) (acts : List DbAction) :
    Except PgError β × List DbAction :=
  match env.rollbackRes with
  | none => (.error e, acts ++ [.rollbackCall])
  | some re => (.error re, acts ++ [.rollbackCall])

/-- The `try`/`except` body of `_execute`: execute and commit; dispatch any
exception of the `try` block (from the statement or from the commit, both
sit inside it) to the transient-retry or the rollback-and-raise branch. -/
def execBody {β : Type} (env : ExecEnv β) : Except PgError β × List DbAction :=
  match env.attempt1 with
  | .ok res =>
      match env.commit1 with
      | none => (.ok res, [.execAttempt 1, .commitCall 1])
      | some ce =>
          if ce.isTransient then execRetry env [.execAttempt 1, .commitCall 1]
          else execRollback env ce [.execAttempt 1, .commitCall 1]
  | .error e =>
      if e.isTransient then execRetry env [.execAttempt 1]
      else execRollback env e [.execAttempt 1]

/-- Number of statement execution attempts in a trace. -/
def countExec (tr : List DbAction) : Nat :=
  tr.countP (fun a => match a with | .execAttempt _ => true | _ => false)

/-! ### `check_foreign_key_references` (src/db_handler.py, lines 275-317)

Parameterised by the rows `(table_schema, table_name)` the
information-schema query returns and by the boolean each per-table
`SELECT EXISTS(...)` probe yields. -/

/-- The qualified name `f"{schema}.{table}"`. -/
def qualName (p : String × String) : String := p.1 ++ "." ++ p.2

/-- `DatabaseManager.check_foreign_key_references`: collect
`f"{schema}.{table}"` for each constraint row whose EXISTS probe is true,
then `sorted(set(conflicts))`. -/
def check_foreign_key_references (fks : List (String × String))
    (refExists : String → String → Bool) : List String :=
  let conflicts := (fks.filter (fun p => refExists p.1 p.2)).map qualName
  List.insertionSort (· ≤ ·) conflicts.dedup

/-! ### The shelfentries insert statement

The statement template shared verbatim by `DeclareHandler.insert_declaration`
(src/pages/Multi_Declare.py, lines 126-136) and by both paths of
`bulk_insert_declarations` (src/pages/test_declare.py, lines 184-189):

  INSERT INTO shelfentries
      (itemid, quantity, locid, trx_type, note, reference_id, reference_type)
  VALUES
      (%s, %s, %s, 'STOCKTAKE', 'declare', NULL, NULL)

modelled as the column list and the VALUES row of literals and `%s`
placeholders. -/

/-- An entry of the VALUES row: a `%s` placeholder (0-based), a string
literal, or NULL. -/
inductive SqlLit where
  | param (i : Nat)
  | lit (s : String)
  | null
  deriving DecidableEq

/-- A concrete SQL value substituted for a placeholder or literal. -/
inductive SqlVal where
  | sint (n : Int)
  | sstr (s : String)
  | snull
  deriving DecidableEq

def shelfInsertCols : List String :=
  ["itemid", "quantity", "locid", "trx_type", "note", "reference_id", "reference_type"]

def shelfInsertVals : List SqlLit :=
  [.param 0, .param 1, .param 2, .lit "STOCKTAKE", .lit "declare", .null, .null]

/-- Substitute the parameter tuple into one VALUES entry. -/
def substLit (params : List SqlVal) : SqlLit → SqlVal
  | .param i => params.getD i .snull
  | .lit s => .sstr s
  | .null => .snull

/-- The column-to-value record a single execution of the statement inserts,
given its parameter tuple. -/
def insertedRecord (params : List SqlVal) : List (String × SqlVal) :=
  shelfInsertCols.zip (shelfInsertVals.map (substLit params))

/-- The parameter tuple an `InsertTuple` is passed as. -/
def tupleParams (t : InsertTuple) : List SqlVal :=
  [.sint t.1, .sint t.2.1, .sstr t.2.2]

/-- The parameter tuples a database call executes the statement with. -/
def callParams : DBCall → List (List SqlVal)
  | .callMany vs => vs.map tupleParams
  | .callCommand t => [tupleParams t]

/-- `DeclareHandler.insert_declaration(itemid, locid, qty)`
(src/pages/Multi_Declare.py): executes the statement above with parameters
`(int(itemid), int(qty), str(locid))`; modelled as the parameter tuple it
passes. -/
def insert_declaration (itemid : Int) (locid : String) (qty : Int) : List SqlVal :=
  [.sint itemid, .sint qty, .sstr locid]

/-- The fixed fields every declaration insert carries. -/
def fixedFields (rec : List (String × SqlVal)) : Prop :=
  rec.lookup "trx_type" = some (.sstr "STOCKTAKE") ∧
  rec.lookup "note" = some (.sstr "declare") ∧
  rec.lookup "reference_id" = some .snull ∧
  rec.lookup "reference_type" = some .snull

/-! ### Helper lemmas -/

instance {ε α : Type} [DecidableEq ε] [DecidableEq α] : DecidableEq (Except ε α) := fun a b =>
  match a, b with
  | .ok x, .ok y =>
      if h : x = y then .isTrue (by rw [h]) else .isFalse (by intro hc; cases hc; exact h rfl)
  | .error x, .error y =>
      if h : x = y then .isTrue (by rw [h]) else .isFalse (by intro hc; cases hc; exact h rfl)
  | .ok _, .error _ => .isFalse (by intro hc; cases hc)
  | .error _, .ok _ => .isFalse (by intro hc; cases hc)

/-- Whether an `execute_command` outcome is a success. -/
def cmdOk (r : Except String Unit) : Bool :=
  match r with | .ok _ => true | .error _ => false

lemma fallbackLoop_eq (db : DB) (ts : List InsertTuple) : ∀ i : Nat,
    fallbackLoop db i ts =
      (ts.countP (fun t => cmdOk (db.execute_command t)),
       ts.countP (fun t => !cmdOk (db.execute_command t)),
       (ts.enumFrom i).filterMap (fun p =>
         match db.execute_command p.2 with
         | .ok _ => none
         | .error e => some (rowFailMsg p.1 p.2 e)),
       ts.map .callCommand) := by
  induction ts with
  | nil => intro i; simp [fallbackLoop, List.enumFrom]
  | cons t ts ih =>
      intro i
      simp only [fallbackLoop, ih (i + 1), List.enumFrom, List.countP_cons, List.map_cons,
        List.filterMap_cons]
      cases h : db.execute_command t with
      | ok u => simp [h, cmdOk, Nat.add_comm]
      | error e => simp [h, cmdOk, rowFailMsg, Nat.add_comm]

lemma validateRowsFrom_length (rows : List InRow) : ∀ i vs es,
    validateRowsFrom i rows = .ok (vs, es) → vs.length + es.length = rows.length := by
  induction rows with
  | nil => intro i vs es h; simp [validateRowsFrom] at h; simp [h.1, h.2]
  | cons r rs ih =>
      intro i vs es h
      simp only [validateRowsFrom] at h
      cases hid : pyIntItem r with
      | error e =>
          rw [hid] at h
          cases hrec : validateRowsFrom (i + 1) rs with
          | error m => rw [hrec] at h; simp [Bind.bind, Except.bind] at h
          | ok p =>
              obtain ⟨vs', es'⟩ := p
              rw [hrec] at h
              simp only [Bind.bind, Except.bind, pure, Except.pure, Except.ok.injEq,
                Prod.mk.injEq] at h
              obtain ⟨h1, h2⟩ := h
              subst h1; subst h2
              have := ih (i + 1) vs' es' hrec
              simp [List.length_cons, ← this]; omega
      | ok itemid =>
          rw [hid] at h
          cases hq : pyInt (qtyVal r) with
          | error m => rw [hq] at h; simp [Bind.bind, Except.bind] at h
          | ok qty =>
              rw [hq] at h
              cases hrec : validateRowsFrom (i + 1) rs with
              | error m => rw [hrec] at h; simp [Bind.bind, Except.bind] at h
              | ok p =>
                  obtain ⟨vs', es'⟩ := p
                  rw [hrec] at h
                  have hlen := ih (i + 1) vs' es' hrec
                  by_cases hq0 : qty ≤ 0
                  · simp only [Bind.bind, Except.bind, pure, Except.pure, if_pos hq0,
                      Except.ok.injEq, Prod.mk.injEq] at h
                    obtain ⟨h1, h2⟩ := h
                    subst h1; subst h2
                    simp [← hlen]; omega
                  · by_cases hl : locidVal r = ""
                    · simp only [Bind.bind, Except.bind, pure, Except.pure, if_neg hq0,
                        if_pos hl, Except.ok.injEq, Prod.mk.injEq] at h
                      obtain ⟨h1, h2⟩ := h
                      subst h1; subst h2
                      simp [← hlen]; omega
                    · simp only [Bind.bind, Except.bind, pure, Except.pure, if_neg hq0,
                        if_neg hl, Except.ok.injEq, Prod.mk.injEq] at h
                      obtain ⟨h1, h2⟩ := h
                      subst h1; subst h2
                      simp [← hlen]; omega

lemma validateRowsFrom_valid (rows : List InRow) : ∀ i vs es,
    validateRowsFrom i rows = .ok (vs, es) →
    ∀ v ∈ vs, 0 < v.qty ∧ v.locid ≠ "" := by
  induction rows with
  | nil => intro i vs es h; simp [validateRowsFrom] at h; simp [h.1]
  | cons r rs ih =>
      intro i vs es h
      simp only [validateRowsFrom] at h
      cases hid : pyIntItem r with
      | error e =>
          rw [hid] at h
          cases hrec : validateRowsFrom (i + 1) rs with
          | error m => rw [hrec] at h; simp [Bind.bind, Except.bind] at h
          | ok p =>
              obtain ⟨vs', es'⟩ := p
              rw [hrec] at h
              simp only [Bind.bind, Except.bind, pure, Except.pure, Except.ok.injEq,
                Prod.mk.injEq] at h
              obtain ⟨h1, _⟩ := h
              subst h1
              exact ih (i + 1) vs' es' hrec
      | ok itemid =>
          rw [hid] at h
          cases hq : pyInt (qtyVal r) with
          | error m => rw [hq] at h; simp [Bind.bind, Except.bind] at h
          | ok qty =>
              rw [hq] at h
              cases hrec : validateRowsFrom (i + 1) rs with
              | error m => rw [hrec] at h; simp [Bind.bind, Except.bind] at h
              | ok p =>
                  obtain ⟨vs', es'⟩ := p
                  rw [hrec] at h
                  have hrest := ih (i + 1) vs' es' hrec
                  by_cases hq0 : qty ≤ 0
                  · simp only [Bind.bind, Except.bind, pure, Except.pure, if_pos hq0,
                      Except.ok.injEq, Prod.mk.injEq] at h
                    obtain ⟨h1, _⟩ := h
                    subst h1
                    exact hrest
                  · by_cases hl : locidVal r = ""
                    · simp only [Bind.bind, Except.bind, pure, Except.pure, if_neg hq0,
                        if_pos hl, Except.ok.injEq, Prod.mk.injEq] at h
                      obtain ⟨h1, _⟩ := h
                      subst h1
                      exact hrest
                    · simp only [Bind.bind, Except.bind, pure, Except.pure, if_neg hq0,
                        if_neg hl, Except.ok.injEq, Prod.mk.injEq] at h
                      obtain ⟨h1, _⟩ := h
                      subst h1
                      intro v hv
                      rcases List.mem_cons.mp hv with hveq | hvmem
                      · subst hveq
                        exact ⟨show 0 < qty by omega, hl⟩
                      · exact hrest v hvmem

lemma bulk_insert_raises (db : DB) (rows : List InRow) (m : String)
    (hrows : rows ≠ []) (h : validate_rows rows = .error m) :
    bulk_insert_declarations db rows = .error m := by
  have hne : rows.isEmpty = false := by
    cases rows with
    | nil => exact absurd rfl hrows
    | cons a l => rfl
  simp [bulk_insert_declarations, hne, h, Bind.bind, Except.bind]

lemma bulk_insert_allInvalid (db : DB) (rows : List InRow) (es : List String)
    (hrows : rows ≠ []) (h : validate_rows rows = .ok ([], es)) :
    bulk_insert_declarations db rows = .ok (⟨0, es.length, es⟩, []) := by
  have hne : rows.isEmpty = false := by
    cases rows with
    | nil => exact absurd rfl hrows
    | cons a l => rfl
  simp [bulk_insert_declarations, hne, h, Bind.bind, Except.bind]

lemma bulk_insert_fast (db : DB) (rows : List InRow) (vs : List VRow) (es : List String)
    (hrows : rows ≠ []) (hvs : vs ≠ [])
    (h : validate_rows rows = .ok (vs, es))
    (hm : db.execute_many (tuplesOf vs) = .ok ()) :
    bulk_insert_declarations db rows =
      .ok (⟨vs.length, 0, es⟩, [.callMany (tuplesOf vs)]) := by
  have hne : rows.isEmpty = false := by
    cases rows with
    | nil => exact absurd rfl hrows
    | cons a l => rfl
  have hvne : vs.isEmpty = false := by
    cases vs with
    | nil => exact absurd rfl hvs
    | cons a l => rfl
  simp only [bulk_insert_declarations, hne, Bool.false_eq_true, if_false, h,
    Bind.bind, Except.bind, hvne, hm]
  simp [tuplesOf]

lemma bulk_insert_fallback (db : DB) (rows : List InRow) (vs : List VRow) (es : List String)
    (e : String) (hrows : rows ≠ []) (hvs : vs ≠ [])
    (h : validate_rows rows = .ok (vs, es))
    (hm : db.execute_many (tuplesOf vs) = .error e) :
    bulk_insert_declarations db rows =
      .ok (⟨(tuplesOf vs).countP (fun t => cmdOk (db.execute_command t)),
            (tuplesOf vs).countP (fun t => !cmdOk (db.execute_command t)),
            (es ++ ["Bulk insert failed: " ++ e]) ++
              ((tuplesOf vs).enumFrom 1).filterMap (fun p =>
                match db.execute_command p.2 with
                | .ok _ => none
                | .error er => some (rowFailMsg p.1 p.2 er))⟩,
        .callMany (tuplesOf vs) :: (tuplesOf vs).map .callCommand) := by
  have hne : rows.isEmpty = false := by
    cases rows with
    | nil => exact absurd rfl hrows
    | cons a l => rfl
  have hvne : vs.isEmpty = false := by
    cases vs with
    | nil => exact absurd rfl hvs
    | cons a l => rfl
  simp [bulk_insert_declarations, hne, hvne, h, hm, Bind.bind, Except.bind,
    fallbackLoop_eq]

/-- The per-row failure messages the fallback loop accumulates: one per
failing tuple, in original order, each carrying the row index, the tuple's
fields and the underlying error. -/
def failMsgsFrom (db : DB) (vs : List VRow) : List String :=
  ((tuplesOf vs).enumFrom 1).filterMap (fun p =>
    match db.execute_command p.2 with
    | .ok _ => none
    | .error er => some (rowFailMsg p.1 p.2 er))

/-- The outcome of the fallback path, given validated rows `vs`, validation
errors `es`, and bulk-failure text `e`. -/
def fallbackOutcome (db : DB) (vs : List VRow) (es : List String) (e : String) : Outcome :=
  ⟨(tuplesOf vs).countP (fun t => cmdOk (db.execute_command t)),
   (tuplesOf vs).countP (fun t => !cmdOk (db.execute_command t)),
   (es ++ ["Bulk insert failed: " ++ e]) ++ failMsgsFrom db vs⟩

/-- The database calls of the fallback path: the failed bulk attempt, then
one per-row command per validated tuple, in original order. -/
def fallbackTrace (vs : List VRow) : List DBCall :=
  .callMany (tuplesOf vs) :: (tuplesOf vs).map .callCommand

lemma bulk_insert_fallback_eq (db : DB) (rows : List InRow) (vs : List VRow)
    (es : List String) (e : String) (hrows : rows ≠ []) (hvs : vs ≠ [])
    (h : validate_rows rows = .ok (vs, es))
    (hm : db.execute_many (tuplesOf vs) = .error e) :
    bulk_insert_declarations db rows = .ok (fallbackOutcome db vs es e, fallbackTrace vs) := by
  rw [bulk_insert_fallback db rows vs es e hrows hvs h hm]
  rfl

lemma traceCommands_fallbackTrace (vs : List VRow) :
    traceCommands (fallbackTrace vs) = tuplesOf vs := by
  simp only [traceCommands, fallbackTrace, List.filterMap_cons, List.filterMap_map]
  simp [Function.comp_def]

lemma mem_traceTuples_fallbackTrace (vs : List VRow) (t : InsertTuple)
    (h : t ∈ traceTuples (fallbackTrace vs)) : t ∈ tuplesOf vs := by
  simp only [traceTuples, fallbackTrace, List.flatMap_cons, List.flatMap_map] at h
  rcases List.mem_append.mp h with h1 | h2
  · exact h1
  · simpa using h2

lemma countP_add_countP_not (l : List InsertTuple) (p : InsertTuple → Bool) :
    l.countP p + l.countP (fun t => !p t) = l.length := by
  induction l with
  | nil => simp
  | cons a l ih =>
      simp only [List.countP_cons, List.length_cons]
      cases h : p a <;> simp [h] <;> omega

lemma length_validate_eq (rows : List InRow) (vs : List VRow) (es : List String)
    (h : validate_rows rows = .ok (vs, es)) : vs.length + es.length = rows.length :=
  validateRowsFrom_length rows 1 vs es h

lemma validate_rows_nil : validate_rows [] = .ok ([], []) := rfl

lemma validate_ne_nil_of_vs (rows : List InRow) (vs : List VRow) (es : List String)
    (h : validate_rows rows = .ok (vs, es)) (hvs : vs ≠ []) : rows ≠ [] := by
  intro hr
  subst hr
  rw [validate_rows_nil] at h
  cases h
  exact hvs rfl

/-! ### Concrete instances used by witnesses and counterexamples -/

/-- A fully valid input row: `{"itemid": 1, "qty": 2, "locid": "A1"}`. -/
def rowGood : InRow := ⟨some (.vint 1), some (.vint 2), some (.vstr "A1")⟩

/-- A second valid row with different fields. -/
def rowGood7 : InRow := ⟨some (.vint 7), some (.vint 3), some (.vstr "B2")⟩

/-- A row rejected by validation: `itemid` is the unparseable string `"x"`. -/
def rowBadItem : InRow := ⟨some (.vstr "x"), some (.vint 1), some (.vstr "A1")⟩

/-- A row whose quantity is the non-empty non-numeric string `"x"`:
`int(r.get("qty", 0) or 0)` raises on it. -/
def rowQtyStr : InRow := ⟨some (.vint 1), some (.vstr "x"), some (.vstr "A1")⟩

/-- The validated form of `rowGood`. -/
def vrowGood : VRow := ⟨1, 2, "A1"⟩

/-- The validated form of `rowGood7`. -/
def vrowGood7 : VRow := ⟨7, 3, "B2"⟩

/-- A per-row behaviour in which every insert succeeds. -/
def perRowOk : InsertTuple → Except String Unit := fun _ => .ok ()

/-- A database on which both the bulk statement and every per-row statement
succeed. -/
def dbAllOk : DB := ⟨fun _ => .ok (), fun _ => .ok ()⟩

/-- A database on which the bulk statement fails and a per-row insert fails
exactly when its itemid is 7. -/
def dbBulkDown : DB :=
  ⟨fun _ => .error "deadlock detected",
   fun t => if t.1 = 7 then .error "fk violation" else .ok ()⟩

/-! ### C1 -/

/-- C1, counterexample: on the batch `[rowBadItem]` every row is rejected by
validation, so the count of rows passing validation is 0; yet the returned
outcome has `ok = 0` and `failed = 1`, so `ok + failed ≠ 0` and the
validation-rejected row is counted in `failed`. -/
theorem c1_counterexample :
    validate_rows [rowBadItem] = .ok ([], ["Row 1: invalid itemid `x`."]) ∧
    bulk_insert_declarations (repoDB perRowOk) [rowBadItem] =
      .ok (⟨0, 1, ["Row 1: invalid itemid `x`."]⟩, []) ∧
    (0 : Nat) + 1 ≠ List.length ([] : List VRow) := by
  refine ⟨by decide, by decide, by decide⟩

/-- C1, amended: for every batch, the validation error messages are an
initial segment of `errors`; when at least one row passes validation,
`ok + failed` equals the number of rows that passed validation and rejected
rows are not counted; but when the batch is non-empty and every row is
rejected, the code sets `failed` to the number of validation errors, so the
rejected rows are counted in `failed` in that single case. -/
theorem c1_amended (db : DB) (rows : List InRow) (vs : List VRow) (es : List String)
    (out : Outcome) (tr : List DBCall)
    (hv : validate_rows rows = .ok (vs, es))
    (hb : bulk_insert_declarations db rows = .ok (out, tr)) :
    (∃ rest, out.errors = es ++ rest) ∧
    (vs ≠ [] → out.ok + out.failed = vs.length) ∧
    (vs = [] → out.ok = 0 ∧ out.failed = es.length) := by
  by_cases hrows : rows = []
  · subst hrows
    rw [validate_rows_nil] at hv
    cases hv
    have : out = ⟨0, 0, []⟩ := by
      have := hb
      simp only [bulk_insert_declarations, List.isEmpty_nil, if_true] at this
      cases this
      rfl
    subst this
    exact ⟨⟨[], rfl⟩, fun h => absurd rfl h, fun _ => ⟨rfl, rfl⟩⟩
  · by_cases hvs : vs = []
    · subst hvs
      rw [bulk_insert_allInvalid db rows es hrows hv] at hb
      cases hb
      exact ⟨⟨[], (List.append_nil es).symm⟩, fun h => absurd rfl h,
        fun _ => ⟨rfl, rfl⟩⟩
    · cases hm : db.execute_many (tuplesOf vs) with
      | ok u =>
          cases u
          rw [bulk_insert_fast db rows vs es hrows hvs hv hm] at hb
          cases hb
          exact ⟨⟨[], (List.append_nil es).symm⟩,
            fun _ => by simp, fun h => absurd h hvs⟩
      | error e =>
          rw [bulk_insert_fallback_eq db rows vs es e hrows hvs hv hm] at hb
          cases hb
          refine ⟨⟨("Bulk insert failed: " ++ e) :: failMsgsFrom db vs, by
            simp [fallbackOutcome]⟩, fun _ => ?_, fun h => absurd h hvs⟩
          show (tuplesOf vs).countP _ + (tuplesOf vs).countP _ = vs.length
          rw [countP_add_countP_not]
          simp [tuplesOf]

/-- C1 witness: the amended theorem applied to the concrete batch
`[rowGood]` on the repository database behaviour. -/
theorem c1_witness :
    (∃ rest,
      (Outcome.mk 1 0 ["Bulk insert failed: " ++ execManyAttrErr]).errors =
        [] ++ rest) ∧
    ([vrowGood] ≠ [] →
      (Outcome.mk 1 0 ["Bulk insert failed: " ++ execManyAttrErr]).ok +
        (Outcome.mk 1 0 ["Bulk insert failed: " ++ execManyAttrErr]).failed =
          [vrowGood].length) ∧
    ([vrowGood] = [] →
      (Outcome.mk 1 0 ["Bulk insert failed: " ++ execManyAttrErr]).ok = 0 ∧
      (Outcome.mk 1 0 ["Bulk insert failed: " ++ execManyAttrErr]).failed =
        ([] : List String).length) :=
  c1_amended (repoDB perRowOk) [rowGood] [vrowGood] [] ⟨1, 0, ["Bulk insert failed: " ++ execManyAttrErr]⟩
    [.callMany [(1, 2, "A1")], .callCommand (1, 2, "A1")]
    (by decide) (by decide)

/-! ### C2 -/

/-- C2: neither `DatabaseManager` nor the `DeclareHandler` of
`test_declare.py` defines `execute_many`, so on every batch with at least
one validated row the fast path raises `AttributeError`; the outcome always
carries a bulk-insert-failure message (the empty-`errors` all-in-one-statement
outcome is unreachable), every per-row insert goes through `execute_command`
in the fallback loop (one call per validated tuple, in order), and `ok`
counts exactly the per-row successes. -/
theorem c2_fast_path_unreachable (perRow : InsertTuple → Except String Unit)
    (rows : List InRow) (vs : List VRow) (es : List String)
    (hv : validate_rows rows = .ok (vs, es)) (hvs : vs ≠ []) :
    "execute_many" ∉ databaseManagerMethods ∧
    "execute_many" ∉ declareHandlerMethods ∧
    bulk_insert_declarations (repoDB perRow) rows =
      .ok (fallbackOutcome (repoDB perRow) vs es execManyAttrErr, fallbackTrace vs) ∧
    ("Bulk insert failed: " ++ execManyAttrErr) ∈
      (fallbackOutcome (repoDB perRow) vs es execManyAttrErr).errors ∧
    (fallbackOutcome (repoDB perRow) vs es execManyAttrErr).errors ≠ [] ∧
    traceCommands (fallbackTrace vs) = tuplesOf vs ∧
    (fallbackOutcome (repoDB perRow) vs es execManyAttrErr).ok =
      (tuplesOf vs).countP (fun t => cmdOk (perRow t)) := by
  have hrows : rows ≠ [] := validate_ne_nil_of_vs rows vs es hv hvs
  have hm : (repoDB perRow).execute_many (tuplesOf vs) = .error execManyAttrErr := rfl
  refine ⟨by decide, by decide,
    bulk_insert_fallback_eq (repoDB perRow) rows vs es execManyAttrErr hrows hvs hv hm,
    ?_, ?_, traceCommands_fallbackTrace vs, rfl⟩
  · simp [fallbackOutcome]
  · simp [fallbackOutcome]

/-- C2 witness: the theorem applied to the concrete batch `[rowGood]` with
every per-row insert succeeding. -/
theorem c2_witness :
    "execute_many" ∉ databaseManagerMethods ∧
    "execute_many" ∉ declareHandlerMethods ∧
    bulk_insert_declarations (repoDB perRowOk) [rowGood] =
      .ok (fallbackOutcome (repoDB perRowOk) [vrowGood] [] execManyAttrErr,
        fallbackTrace [vrowGood]) ∧
    ("Bulk insert failed: " ++ execManyAttrErr) ∈
      (fallbackOutcome (repoDB perRowOk) [vrowGood] [] execManyAttrErr).errors ∧
    (fallbackOutcome (repoDB perRowOk) [vrowGood] [] execManyAttrErr).errors ≠ [] ∧
    traceCommands (fallbackTrace [vrowGood]) = tuplesOf [vrowGood] ∧
    (fallbackOutcome (repoDB perRowOk) [vrowGood] [] execManyAttrErr).ok =
      (tuplesOf [vrowGood]).countP (fun t => cmdOk (perRowOk t)) :=
  c2_fast_path_unreachable perRowOk [rowGood] [vrowGood] [] (by decide) (by decide)

/-! ### C3 -/

/-- A `_fetch_df` environment hitting a transient `OperationalError` on the
first attempt, with the retry succeeding. -/
def fenvTransient : FetchEnv String :=
  ⟨.error (.operational "server closed the connection unexpectedly"),
   .ok ([["1"]], ["itemid"]), none⟩

/-- C3, counterexample: on a transient connection error the facade performs
no rollback at all — the recovery trace is execute, rebuild, re-execute,
with no rollback action — contradicting the claim that the failed
transaction is rolled back before the reconnect. -/
theorem c3_counterexample :
    (fetchBody fenvTransient).2 = [.execAttempt 1, .rebuild, .execAttempt 2] ∧
    DbAction.rollbackCall ∉ (fetchBody fenvTransient).2 := by
  refine ⟨by decide, by decide⟩

/-- C3, amended: on a transient connection error (`OperationalError` or
`InterfaceError`) in `_fetch_df` or `_execute`, the facade performs no
rollback on the failed transaction; it discards the connection, rebuilds it,
and retries the statement exactly once (two execution attempts in total);
if the retry fails again, that error propagates with no further retry. -/
theorem c3_amended {α β : Type} (fenv : FetchEnv α) (eenv : ExecEnv β)
    (e1 e2 : PgError)
    (hf : fenv.attempt1 = .error e1) (ht1 : e1.isTransient = true)
    (he : eenv.attempt1 = .error e2) (ht2 : e2.isTransient = true) :
    (DbAction.rollbackCall ∉ (fetchBody fenv).2 ∧
     DbAction.rebuild ∈ (fetchBody fenv).2 ∧
     countExec (fetchBody fenv).2 = 2 ∧
     (∀ e', fenv.attempt2 = .error e' → (fetchBody fenv).1 = .error e') ∧
     (∀ rows cols, fenv.attempt2 = .ok (rows, cols) →
        (fetchBody fenv).1 = .ok (mkDataFrame rows cols))) ∧
    (DbAction.rollbackCall ∉ (execBody eenv).2 ∧
     DbAction.rebuild ∈ (execBody eenv).2 ∧
     countExec (execBody eenv).2 = 2 ∧
     (∀ e', eenv.attempt2 = .error e' → (execBody eenv).1 = .error e')) := by
  constructor
  · cases h2 : fenv.attempt2 with
    | ok p =>
        obtain ⟨rows, cols⟩ := p
        simp only [fetchBody, hf, ht1, h2, countExec, if_true]
        refine ⟨by decide, by simp, by simp [List.countP_cons], by simp, ?_⟩
        rintro rows' cols' ⟨rfl, rfl⟩
        rfl
    | error e' =>
        simp [fetchBody, hf, ht1, h2, countExec]
  · cases h2 : eenv.attempt2 with
    | ok res =>
        cases hc2 : eenv.commit2 with
        | none => simp [execBody, execRetry, he, ht2, h2, hc2, countExec]
        | some ce2 => simp [execBody, execRetry, he, ht2, h2, hc2, countExec]
    | error e' =>
        simp [execBody, execRetry, he, ht2, h2, countExec]

/-- An `_execute` environment hitting a transient `InterfaceError` on the
first attempt, with the retried statement and commit succeeding. -/
def eenvTransient : ExecEnv (Option (List String)) :=
  ⟨.error (.interfaceErr "connection already closed"), none, .ok none, none, none⟩

/-- C3 witness: the amended theorem applied to the concrete environments
`fenvTransient` and `eenvTransient`. -/
theorem c3_witness :
    (DbAction.rollbackCall ∉ (fetchBody fenvTransient).2 ∧
     DbAction.rebuild ∈ (fetchBody fenvTransient).2 ∧
     countExec (fetchBody fenvTransient).2 = 2 ∧
     (∀ e', fenvTransient.attempt2 = .error e' →
        (fetchBody fenvTransient).1 = .error e') ∧
     (∀ rows cols, fenvTransient.attempt2 = .ok (rows, cols) →
        (fetchBody fenvTransient).1 = .ok (mkDataFrame rows cols))) ∧
    (DbAction.rollbackCall ∉ (execBody eenvTransient).2 ∧
     DbAction.rebuild ∈ (execBody eenvTransient).2 ∧
     countExec (execBody eenvTransient).2 = 2 ∧
     (∀ e', eenvTransient.attempt2 = .error e' →
        (execBody eenvTransient).1 = .error e')) :=
  c3_amended fenvTransient eenvTransient
    (.operational "server closed the connection unexpectedly")
    (.interfaceErr "connection already closed") rfl rfl rfl rfl

/-! ### C4 -/

/-- C4: on a batch whose rows all pass validation but whose bulk attempt
fails, the writer issues exactly one per-row insert per validated row, in
the original input order; each row is tracked independently
(`ok + failed` equals the number of rows, `ok` counting exactly the per-row
successes), and the outcome's errors are the bulk-failure message followed
by exactly one message per failing row, in order, each message built by
`rowFailMsg` from the row's index, itemid, qty, locid and the underlying
error text. -/
theorem c4_fallback_per_row (db : DB) (rows : List InRow) (vs : List VRow) (e : String)
    (hrows : rows ≠ [])
    (hv : validate_rows rows = .ok (vs, []))
    (hm : db.execute_many (tuplesOf vs) = .error e) :
    bulk_insert_declarations db rows =
      .ok (fallbackOutcome db vs [] e, fallbackTrace vs) ∧
    traceCommands (fallbackTrace vs) = tuplesOf vs ∧
    vs.length = rows.length ∧
    (fallbackOutcome db vs [] e).ok + (fallbackOutcome db vs [] e).failed = rows.length ∧
    (fallbackOutcome db vs [] e).ok =
      (tuplesOf vs).countP (fun t => cmdOk (db.execute_command t)) ∧
    (fallbackOutcome db vs [] e).errors =
      ("Bulk insert failed: " ++ e) ::
        ((tuplesOf vs).enumFrom 1).filterMap (fun p =>
          match db.execute_command p.2 with
          | .ok _ => none
          | .error er => some (rowFailMsg p.1 p.2 er)) := by
  have hlen : vs.length = rows.length := by
    have := length_validate_eq rows vs [] hv
    simpa using this
  have hvs : vs ≠ [] := by
    intro h
    subst h
    cases rows with
    | nil => exact hrows rfl
    | cons a l => simp at hlen
  refine ⟨bulk_insert_fallback_eq db rows vs [] e hrows hvs hv hm,
    traceCommands_fallbackTrace vs, hlen, ?_, rfl, ?_⟩
  · show (tuplesOf vs).countP _ + (tuplesOf vs).countP _ = rows.length
    rw [countP_add_countP_not]
    simpa [tuplesOf] using hlen
  · simp [fallbackOutcome, failMsgsFrom]

/-- C4 witness: the theorem applied to the concrete batch
`[rowGood, rowGood7]` on `dbBulkDown`, where the bulk statement fails, the
first row's insert succeeds and the second row's insert fails. -/
theorem c4_witness :
    bulk_insert_declarations dbBulkDown [rowGood, rowGood7] =
      .ok (fallbackOutcome dbBulkDown [vrowGood, vrowGood7] [] "deadlock detected",
        fallbackTrace [vrowGood, vrowGood7]) ∧
    traceCommands (fallbackTrace [vrowGood, vrowGood7]) =
      tuplesOf [vrowGood, vrowGood7] ∧
    [vrowGood, vrowGood7].length = [rowGood, rowGood7].length ∧
    (fallbackOutcome dbBulkDown [vrowGood, vrowGood7] [] "deadlock detected").ok +
      (fallbackOutcome dbBulkDown [vrowGood, vrowGood7] [] "deadlock detected").failed =
        [rowGood, rowGood7].length ∧
    (fallbackOutcome dbBulkDown [vrowGood, vrowGood7] [] "deadlock detected").ok =
      (tuplesOf [vrowGood, vrowGood7]).countP
        (fun t => cmdOk (dbBulkDown.execute_command t)) ∧
    (fallbackOutcome dbBulkDown [vrowGood, vrowGood7] [] "deadlock detected").errors =
      ("Bulk insert failed: " ++ "deadlock detected") ::
        ((tuplesOf [vrowGood, vrowGood7]).enumFrom 1).filterMap (fun p =>
          match dbBulkDown.execute_command p.2 with
          | .ok _ => none
          | .error er => some (rowFailMsg p.1 p.2 er)) :=
  c4_fallback_per_row dbBulkDown [rowGood, rowGood7] [vrowGood, vrowGood7]
    "deadlock detected" (by decide) (by decide) (by decide)

/-! ### C5 -/

/-- C5: on a batch whose rows all pass validation and whose single multi-row
bulk insert succeeds, the writer returns `failed = 0`, `ok` equal to the
batch size, an empty error list, and performs no per-row fallback insert
calls (the trace is the single bulk statement). -/
theorem c5_bulk_success (db : DB) (rows : List InRow) (vs : List VRow)
    (hrows : rows ≠ [])
    (hv : validate_rows rows = .ok (vs, []))
    (hm : db.execute_many (tuplesOf vs) = .ok ()) :
    bulk_insert_declarations db rows =
      .ok (⟨rows.length, 0, []⟩, [.callMany (tuplesOf vs)]) ∧
    traceCommands [DBCall.callMany (tuplesOf vs)] = [] := by
  have hlen : vs.length = rows.length := by
    have := length_validate_eq rows vs [] hv
    simpa using this
  have hvs : vs ≠ [] := by
    intro h
    subst h
    cases rows with
    | nil => exact hrows rfl
    | cons a l => simp at hlen
  rw [bulk_insert_fast db rows vs [] hrows hvs hv hm, hlen]
  exact ⟨rfl, rfl⟩

/-- C5 witness: the theorem applied to the concrete batch
`[rowGood, rowGood7]` on a database where the bulk statement succeeds. -/
theorem c5_witness :
    bulk_insert_declarations dbAllOk [rowGood, rowGood7] =
      .ok (⟨[rowGood, rowGood7].length, 0, []⟩,
        [.callMany (tuplesOf [vrowGood, vrowGood7])]) ∧
    traceCommands [DBCall.callMany (tuplesOf [vrowGood, vrowGood7])] = [] :=
  c5_bulk_success dbAllOk [rowGood, rowGood7] [vrowGood, vrowGood7]
    (by decide) (by decide) (by decide)

/-! ### C6 -/

/-- C6, counterexample: the row `rowQtyStr` has quantity `"x"`, which is not
a positive integer, so by the claim it should be recorded as a per-row error
message and excluded; instead `int(r.get("qty", 0) or 0)` sits outside the
`try` guard and raises, so `bulk_insert_declarations` propagates a
`ValueError` and returns no outcome at all — the row's failure is never
recorded in `errors`. -/
theorem c6_counterexample :
    validate_rows [rowQtyStr] =
      .error "ValueError: invalid literal for int() with base 10: x" ∧
    bulk_insert_declarations (repoDB perRowOk) [rowQtyStr] =
      .error "ValueError: invalid literal for int() with base 10: x" := by
  refine ⟨by decide, by decide⟩

/-- C6, amended: whenever validation completes without raising (which it
fails to do exactly when some quantity value is a non-empty non-numeric
string), every input row is either validated or produces exactly one
per-row error message (`|vs| + |es| = |rows|`); every validated row has a
positive quantity and a non-empty stripped locid; and no database insert is
ever attempted for a rejected row — every tuple in every call of the trace
comes from the validated rows. -/
theorem c6_amended (db : DB) (rows : List InRow) (vs : List VRow) (es : List String)
    (out : Outcome) (tr : List DBCall)
    (hv : validate_rows rows = .ok (vs, es))
    (hb : bulk_insert_declarations db rows = .ok (out, tr)) :
    vs.length + es.length = rows.length ∧
    (∀ v ∈ vs, 0 < v.qty ∧ v.locid ≠ "") ∧
    (∀ t ∈ traceTuples tr, t ∈ tuplesOf vs) := by
  refine ⟨length_validate_eq rows vs es hv,
    validateRowsFrom_valid rows 1 vs es hv, ?_⟩
  by_cases hrows : rows = []
  · subst hrows
    have : tr = [] := by
      have := hb
      simp only [bulk_insert_declarations, List.isEmpty_nil, if_true] at this
      cases this
      rfl
    subst this
    intro t ht
    simp [traceTuples] at ht
  · by_cases hvs : vs = []
    · subst hvs
      rw [bulk_insert_allInvalid db rows es hrows hv] at hb
      cases hb
      intro t ht
      simp [traceTuples] at ht
    · cases hm : db.execute_many (tuplesOf vs) with
      | ok u =>
          cases u
          rw [bulk_insert_fast db rows vs es hrows hvs hv hm] at hb
          cases hb
          intro t ht
          simpa [traceTuples] using ht
      | error e =>
          rw [bulk_insert_fallback_eq db rows vs es e hrows hvs hv hm] at hb
          cases hb
          exact mem_traceTuples_fallbackTrace vs

/-- C6 witness: the amended theorem applied to the concrete batch
`[rowGood, rowBadItem]` on the repository database behaviour: the invalid
row yields exactly one message and only the validated row's tuple is ever
passed to a database call. -/
theorem c6_witness :
    [vrowGood].length + ["Row 2: invalid itemid `x`."].length =
      [rowGood, rowBadItem].length ∧
    (∀ v ∈ [vrowGood], 0 < v.qty ∧ v.locid ≠ "") ∧
    (∀ t ∈ traceTuples [.callMany (tuplesOf [vrowGood]),
        .callCommand ((1 : Int), (2 : Int), "A1")], t ∈ tuplesOf [vrowGood]) :=
  c6_amended (repoDB perRowOk) [rowGood, rowBadItem] [vrowGood]
    ["Row 2: invalid itemid `x`."]
    ⟨1, 0, ["Row 2: invalid itemid `x`.", "Bulk insert failed: " ++ execManyAttrErr]⟩
    [.callMany (tuplesOf [vrowGood]), .callCommand ((1 : Int), (2 : Int), "A1")]
    (by decide) (by decide)

/-! ### C7 -/

/-- A `_fetch_df` environment hitting a non-transient constraint error whose
rollback itself then fails. -/
def fenvConstraint : FetchEnv String :=
  ⟨.error (.otherErr "duplicate key value violates unique constraint"),
   .ok ([], []), some (.interfaceErr "connection already closed")⟩

/-- C7, counterexample: on a non-transient error the rollback is not
best-effort — when `conn.rollback()` itself fails, the rollback's error
propagates to the caller in place of the original error, so rollback errors
are not ignored and the original error does not propagate. -/
theorem c7_counterexample :
    (fetchBody fenvConstraint).1 =
      .error (.interfaceErr "connection already closed") ∧
    (fetchBody fenvConstraint).1 ≠
      .error (.otherErr "duplicate key value violates unique constraint") ∧
    (fetchBody fenvConstraint).2 = [.execAttempt 1, .rollbackCall] := by
  refine ⟨by decide, by decide, by decide⟩

/-- C7, amended: on a non-transient error in `_fetch_df` or `_execute` the
facade neither reconnects nor retries — the trace is the single statement
attempt followed by one rollback call; when the rollback succeeds the
original error propagates immediately, but the rollback is not guarded: if
it fails, its own error propagates in place of the original. -/
theorem c7_amended {α β : Type} (fenv : FetchEnv α) (eenv : ExecEnv β)
    (e1 e2 : PgError)
    (hf : fenv.attempt1 = .error e1) (ht1 : e1.isTransient = false)
    (he : eenv.attempt1 = .error e2) (ht2 : e2.isTransient = false) :
    ((fetchBody fenv).2 = [.execAttempt 1, .rollbackCall] ∧
     (fenv.rollbackRes = none → (fetchBody fenv).1 = .error e1) ∧
     (∀ re, fenv.rollbackRes = some re → (fetchBody fenv).1 = .error re)) ∧
    ((execBody eenv).2 = [.execAttempt 1, .rollbackCall] ∧
     (eenv.rollbackRes = none → (execBody eenv).1 = .error e2) ∧
     (∀ re, eenv.rollbackRes = some re → (execBody eenv).1 = .error re)) := by
  constructor
  · cases hr : fenv.rollbackRes with
    | none => simp [fetchBody, hf, ht1, hr]
    | some re => simp [fetchBody, hf, ht1, hr]
  · cases hr : eenv.rollbackRes with
    | none => simp [execBody, execRollback, he, ht2, hr]
    | some re => simp [execBody, execRollback, he, ht2, hr]

/-- An `_execute` environment hitting a non-transient constraint error with
a succeeding rollback. -/
def eenvConstraint : ExecEnv (Option (List String)) :=
  ⟨.error (.otherErr "null value in column violates not-null constraint"),
   none, .ok none, none, none⟩

/-- C7 witness: the amended theorem applied to the concrete environments
`fenvConstraint` and `eenvConstraint`. -/
theorem c7_witness :
    ((fetchBody fenvConstraint).2 = [.execAttempt 1, .rollbackCall] ∧
     (fenvConstraint.rollbackRes = none →
        (fetchBody fenvConstraint).1 =
          .error (.otherErr "duplicate key value violates unique constraint")) ∧
     (∀ re, fenvConstraint.rollbackRes = some re →
        (fetchBody fenvConstraint).1 = .error re)) ∧
    ((execBody eenvConstraint).2 = [.execAttempt 1, .rollbackCall] ∧
     (eenvConstraint.rollbackRes = none →
        (execBody eenvConstraint).1 =
          .error (.otherErr "null value in column violates not-null constraint")) ∧
     (∀ re, eenvConstraint.rollbackRes = some re →
        (execBody eenvConstraint).1 = .error re)) :=
  c7_amended fenvConstraint eenvConstraint
    (.otherErr "duplicate key value violates unique constraint")
    (.otherErr "null value in column violates not-null constraint")
    rfl rfl rfl rfl

/-! ### C8 -/

/-- A `_fetch_df` environment whose statement succeeds with zero rows and a
two-column cursor description. -/
def fenvEmptyResult : FetchEnv String :=
  ⟨.ok ([], ["itemid", "quantity"]), .ok ([], []), none⟩

/-- C8, counterexample: a zero-row fetch succeeds, but the returned frame is
`pd.DataFrame()`, whose column list is empty — it is not named according to
the cursor description `["itemid", "quantity"]`. -/
theorem c8_counterexample :
    (fetchBody fenvEmptyResult).1 = .ok (⟨[], []⟩ : Frame String) ∧
    (Frame.mk ([] : List (List String)) []).columns ≠ ["itemid", "quantity"] := by
  refine ⟨by decide, by decide⟩

/-- C8, amended: a successful fetch always yields a frame (never an error,
never null); when the result set is empty that frame is the valid empty
table with no rows and no columns, and when at least one row is returned
the frame holds exactly the fetched rows with columns named according to
the cursor description. -/
theorem c8_amended {α : Type} (fenv : FetchEnv α) (rows : List (List α))
    (cols : List String) (h : fenv.attempt1 = .ok (rows, cols)) :
    (fetchBody fenv).1 = .ok (mkDataFrame rows cols) ∧
    (rows = [] → mkDataFrame rows cols = (⟨[], []⟩ : Frame α)) ∧
    (rows ≠ [] → (mkDataFrame rows cols).columns = cols ∧
      (mkDataFrame rows cols).data = rows) := by
  refine ⟨by simp [fetchBody, h], ?_, ?_⟩
  · intro hr
    subst hr
    rfl
  · intro hr
    have : rows.isEmpty = false := by
      cases rows with
      | nil => exact absurd rfl hr
      | cons a l => rfl
    simp [mkDataFrame, this]

/-- C8 witness: the amended theorem applied to the concrete environment
`fenvEmptyResult`. -/
theorem c8_witness :
    (fetchBody fenvEmptyResult).1 =
      .ok (mkDataFrame ([] : List (List String)) ["itemid", "quantity"]) ∧
    (([] : List (List String)) = [] →
      mkDataFrame ([] : List (List String)) ["itemid", "quantity"] =
        (⟨[], []⟩ : Frame String)) ∧
    (([] : List (List String)) ≠ [] →
      (mkDataFrame ([] : List (List String)) ["itemid", "quantity"]).columns =
        ["itemid", "quantity"] ∧
      (mkDataFrame ([] : List (List String)) ["itemid", "quantity"]).data =
        ([] : List (List String))) :=
  c8_amended fenvEmptyResult [] ["itemid", "quantity"] rfl

/-! ### C9 -/

/-- C9: the list returned by `check_foreign_key_references` is sorted and
duplicate-free; a name is in it exactly when some foreign-key constraint row
names that dependent table and the table's EXISTS probe finds a referencing
row; and the list is empty exactly when no dependent table holds a
referencing row. Two distinct dependent tables referencing the value thus
each appear exactly once, even when a table references it in several rows
(the per-table probe is a single EXISTS) or through several constraints
(deduplication). -/
theorem c9_fk_references (fks : List (String × String))
    (refExists : String → String → Bool) :
    List.Sorted (· ≤ ·) (check_foreign_key_references fks refExists) ∧
    (check_foreign_key_references fks refExists).Nodup ∧
    (∀ name, name ∈ check_foreign_key_references fks refExists ↔
      ∃ p, p ∈ fks ∧ refExists p.1 p.2 = true ∧ name = qualName p) ∧
    (check_foreign_key_references fks refExists = [] ↔
      ∀ p, p ∈ fks → refExists p.1 p.2 = false) := by
  have hmem : ∀ name, name ∈ check_foreign_key_references fks refExists ↔
      ∃ p, p ∈ fks ∧ refExists p.1 p.2 = true ∧ name = qualName p := by
    intro name
    simp only [check_foreign_key_references, List.mem_insertionSort, List.mem_dedup,
      List.mem_map, List.mem_filter]
    constructor
    · rintro ⟨p, ⟨hp, hr⟩, rfl⟩
      exact ⟨p, hp, hr, rfl⟩
    · rintro ⟨p, hp, hr, rfl⟩
      exact ⟨p, ⟨hp, hr⟩, rfl⟩
  refine ⟨List.sorted_insertionSort (· ≤ ·) _,
    (List.perm_insertionSort (· ≤ ·) _).nodup_iff.mpr (List.nodup_dedup _),
    hmem, ?_⟩
  constructor
  · intro hnil p hp
    cases hr : refExists p.1 p.2 with
    | false => rfl
    | true =>
        have : qualName p ∈ check_foreign_key_references fks refExists :=
          (hmem (qualName p)).mpr ⟨p, hp, hr, rfl⟩
        rw [hnil] at this
        cases this
  · intro hall
    rw [List.eq_nil_iff_forall_not_mem]
    intro name hname
    obtain ⟨p, hp, hr, _⟩ := (hmem name).mp hname
    rw [hall p hp] at hr
    cases hr

/-! ### C10 -/

lemma fixedFields_tupleParams (t : InsertTuple) :
    fixedFields (insertedRecord (tupleParams t)) := by
  refine ⟨?_, ?_, ?_, ?_⟩ <;> rfl

/-- C10: every execution of the shelfentries insert statement — whether from
`insert_declaration`, from the bulk fast path (`execute_many` over all
validated tuples), or from the per-row fallback (`execute_command`) —
inserts a record whose `trx_type` is `'STOCKTAKE'`, whose `note` is
`'declare'`, and whose `reference_id` and `reference_type` are NULL. -/
theorem c10_fixed_fields (db : DB) (rows : List InRow) (out : Outcome)
    (tr : List DBCall) (itemid qty : Int) (locid : String)
    (_hb : bulk_insert_declarations db rows = .ok (out, tr)) :
    fixedFields (insertedRecord (insert_declaration itemid locid qty)) ∧
    ∀ c ∈ tr, ∀ p ∈ callParams c, fixedFields (insertedRecord p) := by
  constructor
  · exact fixedFields_tupleParams (itemid, qty, locid)
  · intro c _ p hp
    cases c with
    | callMany vs =>
        simp only [callParams, List.mem_map] at hp
        obtain ⟨t, _, rfl⟩ := hp
        exact fixedFields_tupleParams t
    | callCommand t =>
        simp only [callParams, List.mem_singleton] at hp
        subst hp
        exact fixedFields_tupleParams t

/-- C10 witness: the theorem applied to the concrete batch `[rowGood]` on
the repository database behaviour (whose trace holds both a bulk call and a
per-row call) and to concrete `insert_declaration` arguments. -/
theorem c10_witness :
    fixedFields (insertedRecord (insert_declaration 5 "C3" 4)) ∧
    ∀ c ∈ [DBCall.callMany [((1 : Int), (2 : Int), "A1")],
        DBCall.callCommand ((1 : Int), (2 : Int), "A1")],
      ∀ p ∈ callParams c, fixedFields (insertedRecord p) :=
  c10_fixed_fields (repoDB perRowOk) [rowGood]
    ⟨1, 0, ["Bulk insert failed: " ++ execManyAttrErr]⟩
    [DBCall.callMany [((1 : Int), (2 : Int), "A1")],
     DBCall.callCommand ((1 : Int), (2 : Int), "A1")]
    5 4 "C3" (by decide)
